import Mathlib

/-!
Verification of the algorithm-settings registry and dataset hyperparameter
code of the `composer` repository.

Embedded source files:
- `tests/algorithms/algorithm_settings.py` (settings table, lookup helpers,
  mark-annotated parameter enumeration);
- `composer/datasets/mnist.py` (`MNISTDatasetHparams.initialize_object`);
- behavior of `composer.utils.ensure_tuple` as pinned down by
  `tests/utils/test_iter_helpers.py`.

Python values are embedded shallowly: class objects become constructors of
finite inductive types (class identity is constructor equality), keyword
argument dictionaries become association lists of string keys and literal
values, and raising functions return `Except PyError`.
-/

/-- Literal values appearing as keyword-argument values in the settings table.
Float literals are kept verbatim as their source text: nothing in the
registry computes with them, they are only stored and returned. -/
inductive PyLit
  | int (n : Int)
  | str (s : String)
  | bool (b : Bool)
  | float (lit : String)
  | natTuple (xs : List Nat)
deriving DecidableEq, Repr

/-- A Python keyword-argument dictionary, as an association list in source
order. -/
abbrev Kwargs := List (String × PyLit)

/-- The errors the embedded code can raise: `ValueError(msg)` from
`_get_alg_settings` and `initialize_object`, and `KeyError` from the bare
dictionary subscript `_settings[alg_cls]` in `get_algs_with_marks`. -/
inductive PyError
  | valueError (msg : String)
  | keyError
deriving DecidableEq, Repr

/-- The algorithm classes imported at the top of
`tests/algorithms/algorithm_settings.py`. `other name` stands for any further
live subclass of `Algorithm` that runtime reflection over
`composer.algorithms` could discover but that is not one of the imported
classes (and hence has no key in the settings dictionary). -/
inductive AlgCls
  | AGC | Alibi | AugMix | BlurPool | ChannelsLast | ColOut | CutMix | CutOut
  | EMA | Factorize | GhostBatchNorm | LabelSmoothing | LayerFreezing | MixUp
  | NoOpModel | ProgressiveResizing | RandAugment | SAM | SelectiveBackprop
  | SeqLengthWarmup | SqueezeExcite | StochasticDepth | SWA
  | other (name : String)
deriving DecidableEq, Repr

/-- The `__name__` attribute of each algorithm class. -/
def algName : AlgCls → String
  | .AGC => "AGC"
  | .Alibi => "Alibi"
  | .AugMix => "AugMix"
  | .BlurPool => "BlurPool"
  | .ChannelsLast => "ChannelsLast"
  | .ColOut => "ColOut"
  | .CutMix => "CutMix"
  | .CutOut => "CutOut"
  | .EMA => "EMA"
  | .Factorize => "Factorize"
  | .GhostBatchNorm => "GhostBatchNorm"
  | .LabelSmoothing => "LabelSmoothing"
  | .LayerFreezing => "LayerFreezing"
  | .MixUp => "MixUp"
  | .NoOpModel => "NoOpModel"
  | .ProgressiveResizing => "ProgressiveResizing"
  | .RandAugment => "RandAugment"
  | .SAM => "SAM"
  | .SelectiveBackprop => "SelectiveBackprop"
  | .SeqLengthWarmup => "SeqLengthWarmup"
  | .SqueezeExcite => "SqueezeExcite"
  | .StochasticDepth => "StochasticDepth"
  | .SWA => "SWA"
  | .other n => n

/-- The model classes referenced by the settings table. -/
inductive ModelCls
  | SimpleConvModel
  | ComposerResNet
deriving DecidableEq, Repr

/-- The dataset classes referenced by the settings table. -/
inductive DatasetCls
  | RandomImageDataset
deriving DecidableEq, Repr

/-- A `model` or `dataset` entry of a settings record: either a bare class,
or a `(class, kwargs)` tuple. -/
inductive FactorySpec (C : Type)
  | bare (cls : C)
  | withKwargs (cls : C) (kwargs : Kwargs)
deriving DecidableEq, Repr

/-- A Python object built by calling a class with keyword arguments,
`cls(**kwargs)`, recorded as the class together with the arguments it was
applied to. -/
abbrev Instance (C : Type) := C × Kwargs

/-- A non-`None` record of the settings dictionary. Every such record in the
source has exactly the keys `'model'`, `'dataset'` and `'kwargs'`, so it is
embedded as a structure with those three fields. -/
structure AlgSettings where
  model : FactorySpec ModelCls
  dataset : FactorySpec DatasetCls
  kwargs : Kwargs
deriving DecidableEq, Repr

/-- `simple_vision_settings` from the source. -/
def simple_vision_settings : AlgSettings :=
  { model := .bare .SimpleConvModel
    dataset := .bare .RandomImageDataset
    kwargs := [] }

/-- `simple_vision_pil_settings` from the source (defined there but not
referenced by the table). -/
def simple_vision_pil_settings : AlgSettings :=
  { model := .bare .SimpleConvModel
    dataset := .withKwargs .RandomImageDataset [("is_PIL", .bool true)]
    kwargs := [] }

/-- `simple_resnet_settings` from the source. -/
def simple_resnet_settings : AlgSettings :=
  { model := .withKwargs .ComposerResNet
      [("model_name", .str "resnet18"), ("num_classes", .int 2)]
    dataset := .withKwargs .RandomImageDataset [("shape", .natTuple [3, 224, 224])]
    kwargs := [] }

/-- The type of the `_settings` dictionary: a key may be absent (`none`),
present with value `None` (`some none`), or present with a record
(`some (some s)`). -/
abbrev Table := AlgCls → Option (Option AlgSettings)

/-- The `_settings` dictionary of `tests/algorithms/algorithm_settings.py`,
entry by entry. Classes not among the imported ones (`other _`) have no key. -/
def _settings : Table
  | .AGC => some (some simple_vision_settings)
  | .Alibi => some none
  | .AugMix => some (some simple_vision_settings)
  | .BlurPool => some (some
      { model := .bare .SimpleConvModel
        dataset := .bare .RandomImageDataset
        kwargs := [("min_channels", .int 0)] })
  | .ChannelsLast => some (some simple_vision_settings)
  | .ColOut => some (some simple_vision_settings)
  | .CutMix => some (some
      { model := .bare .SimpleConvModel
        dataset := .bare .RandomImageDataset
        kwargs := [("num_classes", .int 2)] })
  | .CutOut => some (some simple_vision_settings)
  | .EMA => some (some
      { model := .bare .SimpleConvModel
        dataset := .bare .RandomImageDataset
        kwargs := [("half_life", .str "1ba")] })
  | .Factorize => some (some simple_resnet_settings)
  | .GhostBatchNorm => some (some
      { model := .withKwargs .ComposerResNet
          [("model_name", .str "resnet18"), ("num_classes", .int 2)]
        dataset := .withKwargs .RandomImageDataset [("shape", .natTuple [3, 224, 224])]
        kwargs := [("ghost_batch_size", .int 2)] })
  | .LabelSmoothing => some (some simple_vision_settings)
  | .LayerFreezing => some (some simple_vision_settings)
  | .MixUp => some (some simple_vision_settings)
  | .ProgressiveResizing => some (some simple_vision_settings)
  | .RandAugment => some (some simple_vision_settings)
  | .NoOpModel => some (some simple_vision_settings)
  | .SAM => some (some simple_vision_settings)
  | .SelectiveBackprop => some (some simple_vision_settings)
  | .SeqLengthWarmup => some none
  | .SqueezeExcite => some (some simple_resnet_settings)
  | .StochasticDepth => some (some
      { model := .withKwargs .ComposerResNet
          [("model_name", .str "resnet50"), ("num_classes", .int 2)]
        dataset := .withKwargs .RandomImageDataset [("shape", .natTuple [3, 224, 224])]
        kwargs :=
          [("stochastic_method", .str "block"),
           ("target_layer_name", .str "ResNetBottleneck"),
           ("drop_rate", .float "0.2"),
           ("drop_distribution", .str "linear"),
           ("drop_warmup", .str "0.0dur"),
           ("use_same_gpu_seed", .bool false)] })
  | .SWA => some (some
      { model := .bare .SimpleConvModel
        dataset := .bare .RandomImageDataset
        kwargs :=
          [("swa_start", .str "0.2dur"),
           ("swa_end", .str "0.97dur"),
           ("update_interval", .str "1ep"),
           ("schedule_swa_lr", .bool true)] })
  | .other _ => none

/-- The message of the `ValueError` raised by `_get_alg_settings`. -/
def missingMsg (alg : AlgCls) : String :=
  "Algorithm " ++ algName alg ++ " not in the settings dictionary."

/-- `_get_alg_settings`, parametrized by the table it reads:
`if alg_cls not in _settings or _settings[alg_cls] is None: raise ValueError(...)`,
otherwise return the record. -/
def _get_alg_settings_at (tbl : Table) (alg : AlgCls) : Except PyError AlgSettings :=
  match tbl alg with
  | none => .error (.valueError (missingMsg alg))
  | some none => .error (.valueError (missingMsg alg))
  | some (some s) => .ok s

/-- `_get_alg_settings` reading the module-level `_settings`. -/
def _get_alg_settings (alg : AlgCls) : Except PyError AlgSettings :=
  _get_alg_settings_at _settings alg

/-- `get_alg_kwargs`: `return _get_alg_settings(alg_cls)['kwargs']`. -/
def get_alg_kwargs_at (tbl : Table) (alg : AlgCls) : Except PyError Kwargs :=
  (_get_alg_settings_at tbl alg).map AlgSettings.kwargs

def get_alg_kwargs (alg : AlgCls) : Except PyError Kwargs :=
  get_alg_kwargs_at _settings alg

/-- The shared body of `get_alg_model` and `get_alg_dataset`: destructure a
tuple entry into `(cls, kwargs)`, or pair a bare class with `{}`, then call
`cls(**kwargs)`. -/
def applyFactory {C : Type} : FactorySpec C → Instance C
  | .withKwargs cls kw => (cls, kw)
  | .bare cls => (cls, [])

/-- `get_alg_model`: look up the record's `'model'` entry and instantiate it. -/
def get_alg_model_at (tbl : Table) (alg : AlgCls) : Except PyError (Instance ModelCls) :=
  (_get_alg_settings_at tbl alg).map fun s => applyFactory s.model

def get_alg_model (alg : AlgCls) : Except PyError (Instance ModelCls) :=
  get_alg_model_at _settings alg

/-- `get_alg_dataset`: look up the record's `'dataset'` entry and instantiate it. -/
def get_alg_dataset_at (tbl : Table) (alg : AlgCls) : Except PyError (Instance DatasetCls) :=
  (_get_alg_settings_at tbl alg).map fun s => applyFactory s.dataset

def get_alg_dataset (alg : AlgCls) : Except PyError (Instance DatasetCls) :=
  get_alg_dataset_at _settings alg

/-- A pytest marker appended to the `marks` list in `get_algs_with_marks`:
`pytest.mark.filterwarnings(pattern)` or `pytest.mark.xfail(reason)`. -/
inductive Mark
  | filterwarnings (pattern : String)
  | xfail (reason : String)
deriving DecidableEq, Repr

/-- The warning pattern suppressed for `SWA` (backslashes as in the Python
raw string). -/
def swaWarnPattern : String :=
  "ignore:Detected call of `lr_scheduler.step\\(\\)` before `optimizer.step\\(\\)`:UserWarning"

/-- The warning pattern suppressed for `MixUp`. -/
def mixupWarnPattern : String :=
  "ignore:Some targets have less than 1 total probability:UserWarning"

/-- One element of the list returned by `get_algs_with_marks`:
`pytest.param(alg_cls, marks=marks, id=alg_cls.__name__)`. -/
structure Param where
  alg : AlgCls
  marks : List Mark
  id : String
deriving DecidableEq, Repr

/-- The `marks` list built for one algorithm by the loop body of
`get_algs_with_marks`, given the value `settings = _settings[alg_cls]`.
The `pytest.importorskip("torch", minversion="1.10")` call guarded by
`alg_cls in (CutMix, MixUp, LabelSmoothing)` checks the environment and does
not touch `marks`, so it has no footprint here. -/
def marksOf (alg : AlgCls) (settings : Option AlgSettings) : List Mark :=
  let marks : List Mark := []
  let marks := if alg = AlgCls.SWA then marks ++ [.filterwarnings swaWarnPattern] else marks
  let marks := if alg = AlgCls.MixUp then marks ++ [.filterwarnings mixupWarnPattern] else marks
  match settings with
  | none => marks ++ [.xfail ("Algorithm " ++ algName alg ++ " is missing settings.")]
  | some _ => marks

/-- One iteration of the loop of `get_algs_with_marks`: the bare dictionary
subscript `settings = _settings[alg_cls]` raises `KeyError` when the class
has no key; otherwise the iteration appends one `pytest.param`. -/
def processAlg_at (tbl : Table) (alg : AlgCls) : Except PyError Param :=
  match tbl alg with
  | none => .error .keyError
  | some settings => .ok { alg := alg, marks := marksOf alg settings, id := algName alg }

def processAlg (alg : AlgCls) : Except PyError Param :=
  processAlg_at _settings alg

/-- `get_algs_with_marks`, parametrized by the table and by the list of live
`Algorithm` subclasses that `common.get_module_subclasses(composer.algorithms,
Algorithm)` returns (reflection output, dynamic). The loop appends one entry
per discovered class and propagates the first exception. -/
def get_algs_with_marks_at (tbl : Table) : List AlgCls → Except PyError (List Param)
  | [] => .ok []
  | alg :: rest => do
    let p ← processAlg_at tbl alg
    let ps ← get_algs_with_marks_at tbl rest
    return p :: ps

def get_algs_with_marks (discovered : List AlgCls) : Except PyError (List Param) :=
  get_algs_with_marks_at _settings discovered

/-- A class's configuration is missing exactly when its key is absent from
the table or its entry is `None`. -/
def missingConfig (alg : AlgCls) : Prop :=
  _settings alg = none ∨ _settings alg = some none

instance (alg : AlgCls) : Decidable (missingConfig alg) := by
  unfold missingConfig; infer_instance

/-- Claim C1: for every algorithm class, `get_alg_kwargs`, `get_alg_model`
and `get_alg_dataset` raise a `ValueError` exactly when the class is absent
from the settings table or its entry is `None`; this missing-configuration
`ValueError` is the only failure the lookup produces, and when the entry is
present and non-`None` each call returns normally. -/
theorem lookup_valueError_iff_missing (alg : AlgCls) :
    (get_alg_kwargs alg = .error (.valueError (missingMsg alg)) ↔ missingConfig alg)
  ∧ (get_alg_model alg = .error (.valueError (missingMsg alg)) ↔ missingConfig alg)
  ∧ (get_alg_dataset alg = .error (.valueError (missingMsg alg)) ↔ missingConfig alg)
  ∧ (∀ e, get_alg_kwargs alg = .error e → e = .valueError (missingMsg alg))
  ∧ (∀ e, get_alg_model alg = .error e → e = .valueError (missingMsg alg))
  ∧ (∀ e, get_alg_dataset alg = .error e → e = .valueError (missingMsg alg))
  ∧ (¬ missingConfig alg →
      (∃ k, get_alg_kwargs alg = .ok k) ∧ (∃ m, get_alg_model alg = .ok m) ∧
        (∃ d, get_alg_dataset alg = .ok d)) := by
  rcases h : _settings alg with _ | (_ | s) <;>
    simp [get_alg_kwargs, get_alg_kwargs_at, get_alg_model, get_alg_model_at,
      get_alg_dataset, get_alg_dataset_at, _get_alg_settings_at, Except.map, h,
      missingConfig]

/-- Witness for C1 at two concrete classes: `Alibi` (entry `None`) fails with
the `ValueError`, `AGC` (entry present) returns normally. -/
theorem lookup_valueError_iff_missing_witness :
    get_alg_kwargs AlgCls.Alibi = .error (.valueError (missingMsg AlgCls.Alibi))
    ∧ ∃ k, get_alg_kwargs AlgCls.AGC = .ok k := by
  refine ⟨(lookup_valueError_iff_missing AlgCls.Alibi).1.mpr (by decide), ?_⟩
  exact ((lookup_valueError_iff_missing AlgCls.AGC).2.2.2.2.2.2 (by decide)).1

/-- Claim C5: if any of `get_alg_kwargs`, `get_alg_model`, `get_alg_dataset`
returns successfully for a class, then that class's entry in the settings
table exists and is not `None`. -/
theorem success_requires_settings (alg : AlgCls) :
    (∀ k, get_alg_kwargs alg = Except.ok k → ∃ s, _settings alg = some (some s))
  ∧ (∀ m, get_alg_model alg = Except.ok m → ∃ s, _settings alg = some (some s))
  ∧ (∀ d, get_alg_dataset alg = Except.ok d → ∃ s, _settings alg = some (some s)) := by
  rcases h : _settings alg with _ | (_ | s) <;>
    simp [get_alg_kwargs, get_alg_kwargs_at, get_alg_model, get_alg_model_at,
      get_alg_dataset, get_alg_dataset_at, _get_alg_settings_at, Except.map, h]

/-- Witness for C5: `get_alg_kwargs AGC` succeeds, so `AGC` has a non-`None`
entry. -/
theorem success_requires_settings_witness :
    ∃ s, _settings AlgCls.AGC = some (some s) :=
  (success_requires_settings AlgCls.AGC).1 [] rfl

/-- Claim C4: for a class whose record is present and non-`None`,
`get_alg_kwargs` returns exactly the record's `'kwargs'` entry, and
`get_alg_model` / `get_alg_dataset` build the instance from the record's
`'model'` / `'dataset'` entry: a `(class, kwargs)` tuple yields the class
applied to those keyword arguments, a bare class yields the class applied to
no arguments. -/
theorem present_settings_instantiation (alg : AlgCls) (s : AlgSettings)
    (h : _settings alg = some (some s)) :
    get_alg_kwargs alg = Except.ok s.kwargs
  ∧ (∀ cls kw, s.model = FactorySpec.withKwargs cls kw →
      get_alg_model alg = Except.ok (cls, kw))
  ∧ (∀ cls, s.model = FactorySpec.bare cls → get_alg_model alg = Except.ok (cls, []))
  ∧ (∀ cls kw, s.dataset = FactorySpec.withKwargs cls kw →
      get_alg_dataset alg = Except.ok (cls, kw))
  ∧ (∀ cls, s.dataset = FactorySpec.bare cls →
      get_alg_dataset alg = Except.ok (cls, [])) := by
  refine ⟨?_, ?_, ?_, ?_, ?_⟩
  · simp [get_alg_kwargs, get_alg_kwargs_at, _get_alg_settings_at, Except.map, h]
  · intro cls kw hm
    simp [get_alg_model, get_alg_model_at, _get_alg_settings_at, Except.map, h, hm,
      applyFactory]
  · intro cls hm
    simp [get_alg_model, get_alg_model_at, _get_alg_settings_at, Except.map, h, hm,
      applyFactory]
  · intro cls kw hd
    simp [get_alg_dataset, get_alg_dataset_at, _get_alg_settings_at, Except.map, h, hd,
      applyFactory]
  · intro cls hd
    simp [get_alg_dataset, get_alg_dataset_at, _get_alg_settings_at, Except.map, h, hd,
      applyFactory]

/-- Witness for C4 at `GhostBatchNorm`, whose `'model'` entry is the tuple
`(ComposerResNet, dict(model_name=resnet18, num_classes=2))`. -/
theorem present_settings_instantiation_witness :
    get_alg_model AlgCls.GhostBatchNorm =
      Except.ok (ModelCls.ComposerResNet,
        [("model_name", PyLit.str "resnet18"), ("num_classes", PyLit.int 2)]) :=
  (present_settings_instantiation AlgCls.GhostBatchNorm _ rfl).2.1
    ModelCls.ComposerResNet _ rfl

/-- The public operations of the registry module, with their arguments. -/
inductive RegistryOp
  | kwargs (alg : AlgCls)
  | model (alg : AlgCls)
  | dataset (alg : AlgCls)
  | algsWithMarks (discovered : List AlgCls)

/-- The value returned (or exception raised) by one registry operation. -/
inductive OpResult
  | kwargs (r : Except PyError Kwargs)
  | model (r : Except PyError (Instance ModelCls))
  | dataset (r : Except PyError (Instance DatasetCls))
  | params (r : Except PyError (List Param))

/-- Stateful semantics of one public call, with the settings table as the
state. The body of each Python function only reads `_settings` (via `in`,
subscripts and `.get`-free lookups); it contains no assignment to
`_settings`, no mutation of its records and no `del`, so the post-state is
exactly the table the call received, whether the call returns or raises. -/
def runOp (tbl : Table) : RegistryOp → OpResult × Table
  | .kwargs alg => (.kwargs (get_alg_kwargs_at tbl alg), tbl)
  | .model alg => (.model (get_alg_model_at tbl alg), tbl)
  | .dataset alg => (.dataset (get_alg_dataset_at tbl alg), tbl)
  | .algsWithMarks discovered => (.params (get_algs_with_marks_at tbl discovered), tbl)

/-- The table left behind by a sequence of public calls. -/
def runOps (tbl : Table) : List RegistryOp → Table
  | [] => tbl
  | op :: rest => runOps (runOp tbl op).2 rest

/-- Claim C9: after any sequence of calls to `get_alg_kwargs`,
`get_alg_model`, `get_alg_dataset` or `get_algs_with_marks`, whether each
returns or raises, every entry of the settings table is unchanged from its
initial definition. -/
theorem settings_never_mutated (ops : List RegistryOp) (alg : AlgCls) :
    runOps _settings ops alg = _settings alg := by
  suffices h : ∀ tbl, runOps tbl ops = tbl by rw [h]
  intro tbl
  induction ops with
  | nil => rfl
  | cons op rest ih =>
    cases op <;> simpa [runOps, runOp] using ih

/-- Modelled from the spec: `DataLoaderHparams` (from
`composer/datasets/dataloader.py`, not under `src/`) holds dataloader
settings "common across both training and eval datasets"; none of its
contents is consulted by the branching logic of
`MNISTDatasetHparams.initialize_object`, so it is embedded as an abstract
token carried through unchanged. -/
structure DataLoaderHparams where
  tok : Unit := ()
deriving DecidableEq, Repr

/-- The dataset object constructed by `MNISTDatasetHparams.initialize_object`:
either a `SyntheticBatchPairDataset` recorded with the constructor arguments
it was given, or a `torchvision` `datasets.MNIST` with its arguments. The
synthetic and MNIST constructors themselves are outside `src/`; the record
of arguments is what the claims observe. -/
inductive MNISTDataset
  | synthetic (total_dataset_size : Nat) (data_shape : List Nat) (num_classes : Nat)
      (num_unique_samples_to_create : Option Nat) (device : String)
      (memory_format : String)
  | mnist (root : String) (train : Bool) (download : Bool)
deriving DecidableEq, Repr

/-- The sampler returned by `dist.get_sampler(dataset, drop_last=..., shuffle=...)`. -/
structure Sampler where
  dataset : MNISTDataset
  drop_last : Bool
  shuffle : Bool
deriving DecidableEq, Repr

/-- The dataloader built by `dataloader_hparams.initialize_object(...)`,
recorded with the arguments the source passes to it. -/
structure DataLoaderSpec where
  dataset : MNISTDataset
  batch_size : Nat
  sampler : Sampler
  drop_last : Bool
  hparams : DataLoaderHparams
deriving DecidableEq, Repr

/-- The hyperparameter fields read by `MNISTDatasetHparams.initialize_object`.
`download` is declared in `composer/datasets/mnist.py`; the remaining fields
come from the base classes `DatasetHparams` and `SyntheticHparamsMixin`
(`composer/datasets/hparams.py`, not under `src/`), modelled from the spec's
description of hyperparameter containers and from their uses in `mnist.py`:
`is_train`, `drop_last`, `shuffle`, an optional `datadir`, and the
synthetic-dataset knobs. -/
structure MNISTDatasetHparams where
  is_train : Bool
  drop_last : Bool
  shuffle : Bool
  datadir : Option String
  use_synthetic : Bool
  synthetic_num_unique_samples : Option Nat
  synthetic_device : String
  synthetic_memory_format : String
  download : Bool := true
deriving DecidableEq, Repr

/-- `MNISTDatasetHparams.initialize_object`: with `use_synthetic` a synthetic
batch-pair dataset of 60000 (train) or 10000 (eval) samples, shape
`[1, 28, 28]`, 10 classes, is built; otherwise a missing `datadir` raises
`ValueError` before any dataset is constructed, and a present `datadir`
yields `datasets.MNIST(datadir, train=is_train, download=download, ...)`.
Either dataset is wrapped with a distributed sampler and handed to the
dataloader hyperparameters. -/
def MNISTDatasetHparams.initialize_object (self : MNISTDatasetHparams)
    (batch_size : Nat) (dataloader_hparams : DataLoaderHparams) :
    Except PyError DataLoaderSpec :=
  if self.use_synthetic then
    let dataset := MNISTDataset.synthetic
      (if self.is_train then 60000 else 10000) [1, 28, 28] 10
      self.synthetic_num_unique_samples self.synthetic_device
      self.synthetic_memory_format
    .ok
      { dataset := dataset
        batch_size := batch_size
        sampler := { dataset := dataset, drop_last := self.drop_last, shuffle := self.shuffle }
        drop_last := self.drop_last
        hparams := dataloader_hparams }
  else
    match self.datadir with
    | none => .error (.valueError "datadir is required if synthetic is False")
    | some dd =>
      let dataset := MNISTDataset.mnist dd self.is_train self.download
      .ok
        { dataset := dataset
          batch_size := batch_size
          sampler := { dataset := dataset, drop_last := self.drop_last, shuffle := self.shuffle }
          drop_last := self.drop_last
          hparams := dataloader_hparams }

/-- Claim C6: with `use_synthetic` true, `initialize_object` builds a
synthetic stand-in dataset without consulting `datadir` or `download` (its
result is unchanged under any values of those two fields, and no `ValueError`
is raised); with `use_synthetic` false and `datadir` absent, it raises the
`datadir` `ValueError` (the error carries no constructed dataset). -/
theorem mnist_synthetic_no_datadir (hp : MNISTDatasetHparams) (bs : Nat)
    (dlh : DataLoaderHparams) :
    (hp.use_synthetic = true →
      (∀ dd dl,
        MNISTDatasetHparams.initialize_object { hp with datadir := dd, download := dl } bs dlh
          = hp.initialize_object bs dlh)
      ∧ ∃ spec, hp.initialize_object bs dlh = Except.ok spec
          ∧ ∃ sz sh nc nu dev mf,
              spec.dataset = MNISTDataset.synthetic sz sh nc nu dev mf)
  ∧ (hp.use_synthetic = false → hp.datadir = none →
      hp.initialize_object bs dlh
        = Except.error (PyError.valueError "datadir is required if synthetic is False")) := by
  constructor
  · intro hsyn
    refine ⟨fun dd dl => ?_, ?_⟩
    · simp [MNISTDatasetHparams.initialize_object, hsyn]
    · simp only [MNISTDatasetHparams.initialize_object, hsyn, if_true, eq_self_iff_true]
      exact ⟨_, rfl, _, _, _, _, _, _, rfl⟩
  · intro hsyn hdd
    simp [MNISTDatasetHparams.initialize_object, hsyn, hdd]

/-- Witness for C6: a concrete synthetic configuration is insensitive to
`datadir`, and a concrete real-data configuration without `datadir` raises. -/
theorem mnist_synthetic_no_datadir_witness :
    (MNISTDatasetHparams.initialize_object
        { is_train := true, drop_last := false, shuffle := true,
          datadir := some "/data", use_synthetic := true,
          synthetic_num_unique_samples := some 4, synthetic_device := "cpu",
          synthetic_memory_format := "contiguous_format", download := false } 8 {}
      = MNISTDatasetHparams.initialize_object
        { is_train := true, drop_last := false, shuffle := true,
          datadir := none, use_synthetic := true,
          synthetic_num_unique_samples := some 4, synthetic_device := "cpu",
          synthetic_memory_format := "contiguous_format", download := true } 8 {})
    ∧ MNISTDatasetHparams.initialize_object
        { is_train := true, drop_last := false, shuffle := true,
          datadir := none, use_synthetic := false,
          synthetic_num_unique_samples := none, synthetic_device := "cpu",
          synthetic_memory_format := "contiguous_format", download := true } 8 {}
      = Except.error (PyError.valueError "datadir is required if synthetic is False") := by
  constructor
  · exact ((mnist_synthetic_no_datadir
      { is_train := true, drop_last := false, shuffle := true,
        datadir := none, use_synthetic := true,
        synthetic_num_unique_samples := some 4, synthetic_device := "cpu",
        synthetic_memory_format := "contiguous_format", download := true } 8 {}).1
      rfl).1 (some "/data") false
  · exact (mnist_synthetic_no_datadir
      { is_train := true, drop_last := false, shuffle := true,
        datadir := none, use_synthetic := false,
        synthetic_num_unique_samples := none, synthetic_device := "cpu",
        synthetic_memory_format := "contiguous_format", download := true } 8 {}).2
      rfl rfl

/-- Claim C8: with `use_synthetic` true, the synthetic dataset built by
`initialize_object` has total size 60000 when `is_train` and 10000 otherwise,
data shape `[1, 28, 28]` and 10 classes. -/
theorem mnist_synthetic_sizes (hp : MNISTDatasetHparams) (bs : Nat)
    (dlh : DataLoaderHparams) (hsyn : hp.use_synthetic = true) :
    ∃ spec, hp.initialize_object bs dlh = Except.ok spec
      ∧ spec.dataset = MNISTDataset.synthetic
          (if hp.is_train then 60000 else 10000) [1, 28, 28] 10
          hp.synthetic_num_unique_samples hp.synthetic_device
          hp.synthetic_memory_format := by
  simp only [MNISTDatasetHparams.initialize_object, hsyn, if_true, eq_self_iff_true]
  exact ⟨_, rfl, rfl⟩

/-- Witness for C8: the training split of a concrete synthetic configuration
has 60000 samples and the eval split 10000. -/
theorem mnist_synthetic_sizes_witness :
    (∃ spec, MNISTDatasetHparams.initialize_object
        { is_train := true, drop_last := false, shuffle := true, datadir := none,
          use_synthetic := true, synthetic_num_unique_samples := none,
          synthetic_device := "cpu", synthetic_memory_format := "contiguous_format",
          download := true } 8 {}
      = Except.ok spec
      ∧ spec.dataset = MNISTDataset.synthetic 60000 [1, 28, 28] 10 none "cpu"
          "contiguous_format")
    ∧ ∃ spec, MNISTDatasetHparams.initialize_object
        { is_train := false, drop_last := false, shuffle := true, datadir := none,
          use_synthetic := true, synthetic_num_unique_samples := none,
          synthetic_device := "cpu", synthetic_memory_format := "contiguous_format",
          download := true } 8 {}
      = Except.ok spec
      ∧ spec.dataset = MNISTDataset.synthetic 10000 [1, 28, 28] 10 none "cpu"
          "contiguous_format" := by
  constructor
  · simpa using mnist_synthetic_sizes
      { is_train := true, drop_last := false, shuffle := true, datadir := none,
        use_synthetic := true, synthetic_num_unique_samples := none,
        synthetic_device := "cpu", synthetic_memory_format := "contiguous_format",
        download := true } 8 {} rfl
  · simpa using mnist_synthetic_sizes
      { is_train := false, drop_last := false, shuffle := true, datadir := none,
        use_synthetic := true, synthetic_num_unique_samples := none,
        synthetic_device := "cpu", synthetic_memory_format := "contiguous_format",
        download := true } 8 {} rfl

/-- A Python runtime value at the interface of `ensure_tuple`, covering the
kinds of argument its contract distinguishes. `other tag` stands for any
object of a type the function treats generically (e.g. the tensors and
arrays of the tests); `int` values arise as the elements of a `range`. -/
inductive PyObj
  | pyNone
  | int (n : Int)
  | str (s : String)
  | bytes (s : String)
  | bytearray (s : String)
  | tuple (xs : List PyObj)
  | pyList (xs : List PyObj)
  | range (n : Nat)
  | dict (kvs : List (PyObj × PyObj))
  | other (tag : String)

/-- Modelled from the spec: `ensure_tuple` lives in `composer.utils`, which
is not under `src/`; only its test suite `tests/utils/test_iter_helpers.py`
is. Its contract, as those tests pin it down: `None` becomes the empty
tuple; `str`, `bytes` and `bytearray` become one-element tuples holding the
argument unchanged (never iterated character by character); a `tuple`,
`list` or `range` becomes the tuple of its elements in order; a `dict`
becomes the tuple of its values in order; anything else becomes a
one-element tuple holding the argument. The returned tuple is embedded as a
`List PyObj`. -/
def ensure_tuple : PyObj → List PyObj
  | .pyNone => []
  | .str s => [.str s]
  | .bytes s => [.bytes s]
  | .bytearray s => [.bytearray s]
  | .tuple xs => xs
  | .pyList xs => xs
  | .range n => (List.range n).map fun i => PyObj.int i
  | .dict kvs => kvs.map Prod.snd
  | .int n => [.int n]
  | .other t => [.other t]

/-- Claim C7: `ensure_tuple` normalizes its argument to a tuple with the
documented edge cases: `None` to the empty tuple; `str`/`bytes`/`bytearray`
to a one-element tuple holding it unchanged; `tuple`/`list`/`range` to the
tuple of its elements in order; `dict` to the tuple of its values in order;
any other object to a one-element tuple holding it. -/
theorem ensure_tuple_normalizes :
    ensure_tuple PyObj.pyNone = []
  ∧ (∀ s, ensure_tuple (PyObj.str s) = [PyObj.str s])
  ∧ (∀ s, ensure_tuple (PyObj.bytes s) = [PyObj.bytes s])
  ∧ (∀ s, ensure_tuple (PyObj.bytearray s) = [PyObj.bytearray s])
  ∧ (∀ xs, ensure_tuple (PyObj.tuple xs) = xs)
  ∧ (∀ xs, ensure_tuple (PyObj.pyList xs) = xs)
  ∧ (∀ n, ensure_tuple (PyObj.range n) = (List.range n).map fun i => PyObj.int i)
  ∧ (∀ kvs, ensure_tuple (PyObj.dict kvs) = kvs.map Prod.snd)
  ∧ (∀ n, ensure_tuple (PyObj.int n) = [PyObj.int n])
  ∧ (∀ t, ensure_tuple (PyObj.other t) = [PyObj.other t]) :=
  ⟨rfl, fun _ => rfl, fun _ => rfl, fun _ => rfl, fun _ => rfl, fun _ => rfl,
   fun _ => rfl, fun _ => rfl, fun _ => rfl, fun _ => rfl⟩

/-- A successful loop iteration determines its `pytest.param`: the class had
a key, and the entry is the class with its computed marks and name. -/
theorem processAlg_at_ok {tbl : Table} {alg : AlgCls} {p : Param}
    (h : processAlg_at tbl alg = Except.ok p) :
    ∃ settings, tbl alg = some settings
      ∧ p = { alg := alg, marks := marksOf alg settings, id := algName alg } := by
  unfold processAlg_at at h
  cases hs : tbl alg with
  | none => rw [hs] at h; cases h
  | some settings =>
    rw [hs] at h
    cases h
    exact ⟨settings, rfl, rfl⟩

/-- Every element of a successful `get_algs_with_marks` run comes from a
successful iteration on some discovered class. -/
theorem get_algs_with_marks_at_mem {tbl : Table} {l : List AlgCls} {ps : List Param}
    (h : get_algs_with_marks_at tbl l = Except.ok ps) :
    ∀ p ∈ ps, ∃ a ∈ l, processAlg_at tbl a = Except.ok p := by
  induction l generalizing ps with
  | nil =>
    simp only [get_algs_with_marks_at, Except.ok.injEq] at h
    subst h
    simp
  | cons a rest ih =>
    intro p hp
    simp only [get_algs_with_marks_at] at h
    cases ha : processAlg_at tbl a with
    | error e => rw [ha] at h; simp [Bind.bind, Except.bind] at h
    | ok p0 =>
      rw [ha] at h
      cases hr : get_algs_with_marks_at tbl rest with
      | error e => rw [hr] at h; simp [Bind.bind, Except.bind] at h
      | ok qs =>
        rw [hr] at h
        simp only [Bind.bind, Except.bind, pure, Except.pure, Except.ok.injEq] at h
        subst h
        rcases List.mem_cons.mp hp with h1 | h2
        · exact ⟨a, by simp, h1 ▸ ha⟩
        · obtain ⟨b, hb, hpb⟩ := ih hr p h2
          exact ⟨b, by simp [hb], hpb⟩

/-- When every discovered class has a key, the loop completes and returns one
entry per class, in order. -/
theorem get_algs_with_marks_at_ok_of_keys {tbl : Table} {l : List AlgCls}
    (h : ∀ a ∈ l, (tbl a).isSome = true) :
    ∃ ps, get_algs_with_marks_at tbl l = Except.ok ps ∧ ps.map Param.alg = l := by
  induction l with
  | nil => exact ⟨[], rfl, rfl⟩
  | cons a rest ih =>
    obtain ⟨settings, hs⟩ := Option.isSome_iff_exists.mp (h a (by simp))
    obtain ⟨ps, hps, hmap⟩ := ih fun b hb => h b (by simp [hb])
    refine ⟨{ alg := a, marks := marksOf a settings, id := algName a } :: ps, ?_, by simp [hmap]⟩
    simp only [get_algs_with_marks_at, processAlg_at, hs, hps, Bind.bind, Except.bind,
      pure, Except.pure]

/-- Conversely, a successful run requires every discovered class to have a
key in the table. -/
theorem keys_of_get_algs_with_marks_at_ok {tbl : Table} {l : List AlgCls} {ps : List Param}
    (h : get_algs_with_marks_at tbl l = Except.ok ps) :
    ∀ a ∈ l, (tbl a).isSome = true := by
  induction l generalizing ps with
  | nil => simp
  | cons a rest ih =>
    simp only [get_algs_with_marks_at] at h
    cases ha : processAlg_at tbl a with
    | error e => rw [ha] at h; simp [Bind.bind, Except.bind] at h
    | ok p0 =>
      rw [ha] at h
      cases hr : get_algs_with_marks_at tbl rest with
      | error e => rw [hr] at h; simp [Bind.bind, Except.bind] at h
      | ok qs =>
        intro b hb
        obtain ⟨settings, hs, _⟩ := processAlg_at_ok ha
        rcases List.mem_cons.mp hb with h1 | h2
        · rw [h1, hs]; rfl
        · exact ih hr b h2

/-- Claim C2 counterexample: reflection may discover an `Algorithm` subclass
with no key in the settings dictionary, and on such a class the bare
subscript `_settings[alg_cls]` in `get_algs_with_marks` raises `KeyError`
instead of producing a parameter entry. -/
theorem get_algs_with_marks_keyError :
    get_algs_with_marks [AlgCls.other "CustomAlg"] = Except.error PyError.keyError := rfl

/-- Claim C2 as amended: `get_algs_with_marks` produces exactly one parameter
entry, in order, for every discovered subclass provided each discovered
subclass has a key in the settings table (a `None` entry suffices); a
successful run conversely certifies that every discovered subclass had a
key. A discovered subclass without a key makes the call raise `KeyError`. -/
theorem get_algs_with_marks_entries (discovered : List AlgCls) :
    ((∀ a ∈ discovered, (_settings a).isSome = true) →
      ∃ ps, get_algs_with_marks discovered = Except.ok ps
        ∧ ps.map Param.alg = discovered)
  ∧ (∀ ps, get_algs_with_marks discovered = Except.ok ps →
      ∀ a ∈ discovered, (_settings a).isSome = true) :=
  ⟨fun h => get_algs_with_marks_at_ok_of_keys h,
   fun _ h => keys_of_get_algs_with_marks_at_ok h⟩

/-- Witness for amended C2: the two-element reflection output `[AGC, Alibi]`
(one configured class, one `None` entry) yields exactly one entry per class. -/
theorem get_algs_with_marks_entries_witness :
    ∃ ps, get_algs_with_marks [AlgCls.AGC, AlgCls.Alibi] = Except.ok ps
      ∧ ps.map Param.alg = [AlgCls.AGC, AlgCls.Alibi] :=
  (get_algs_with_marks_entries [AlgCls.AGC, AlgCls.Alibi]).1 (by decide)

/-- The marks computed for one class: an xfail exactly when the entry is
`None`, a filterwarnings exactly for `SWA` and `MixUp`, nothing otherwise. -/
theorem marksOf_spec (alg : AlgCls) (s : Option AlgSettings) :
    ((∃ r, Mark.xfail r ∈ marksOf alg s) ↔ s = none)
  ∧ ((∃ pat, Mark.filterwarnings pat ∈ marksOf alg s)
      ↔ (alg = AlgCls.SWA ∨ alg = AlgCls.MixUp))
  ∧ (alg ≠ AlgCls.SWA → alg ≠ AlgCls.MixUp → s ≠ none → marksOf alg s = []) := by
  rcases s with _ | s <;> by_cases hA : alg = AlgCls.SWA <;>
    by_cases hB : alg = AlgCls.MixUp <;> simp_all [marksOf]

/-- Claim C3: in the list returned by `get_algs_with_marks`, an xfail
annotation is attached to exactly those entries whose settings value is
`None`, a warning-suppression annotation to exactly the classes `SWA` and
`MixUp` (by class identity), and a class that is neither of those and has a
non-`None` entry receives no marker at all. -/
theorem marks_assignment (discovered : List AlgCls) (ps : List Param)
    (h : get_algs_with_marks discovered = Except.ok ps) :
    ∀ p ∈ ps,
      ((∃ r, Mark.xfail r ∈ p.marks) ↔ _settings p.alg = some none)
    ∧ ((∃ pat, Mark.filterwarnings pat ∈ p.marks)
        ↔ (p.alg = AlgCls.SWA ∨ p.alg = AlgCls.MixUp))
    ∧ (p.alg ≠ AlgCls.SWA → p.alg ≠ AlgCls.MixUp → _settings p.alg ≠ some none →
        p.marks = []) := by
  intro p hp
  obtain ⟨a, _, ha⟩ := get_algs_with_marks_at_mem h p hp
  obtain ⟨settings, hs, hp'⟩ := processAlg_at_ok ha
  subst hp'
  obtain ⟨h1, h2, h3⟩ := marksOf_spec a settings
  refine ⟨?_, by simpa using h2, ?_⟩
  · simpa [hs] using h1
  · intro h4 h5 h6
    refine h3 (by simpa using h4) (by simpa using h5) fun hn => h6 ?_
    rw [hs, hn]

/-- Witness for C3 at the run on `[Alibi]`: the single entry's only marker is
the xfail, matching `Alibi`'s `None` settings value. -/
theorem marks_assignment_witness :
    (∃ r, Mark.xfail r ∈ (Param.mk AlgCls.Alibi
        [Mark.xfail "Algorithm Alibi is missing settings."] "Alibi").marks)
    ↔ _settings AlgCls.Alibi = some none :=
  (marks_assignment [AlgCls.Alibi]
    [Param.mk AlgCls.Alibi [Mark.xfail "Algorithm Alibi is missing settings."] "Alibi"]
    rfl _ (List.mem_singleton.mpr rfl)).1
